import Mathlib

/- Verification development for the Tunnox UDP integration-test orchestration
   scripts (udp-test/integration_test.py and udp-test/generate_configs.py).
   External effects (subprocess execution, SSH, the MySQL client library) are
   modelled by explicit outcome environments; the observable side effects of
   each function are recorded as event traces. -/

namespace Tunnox

/-! ## Verification rounds: test_mysql_connection and run_mysql_tests -/

/- Observable events of one verification round. connOpen is recorded when
   pymysql.connect succeeds; probeExec when the probe SELECT succeeds;
   queryExec when the configured heavy query succeeds; cursorClose and
   connClose for the cursor.close and conn.close calls. -/
inductive VEvent where
  | connOpen
  | probeExec
  | queryExec
  | cursorClose
  | connClose
  deriving DecidableEq, Repr

/- Behaviour of the external database endpoint in one round: the connect call
   raises, the probe statement raises, the heavy query raises, or everything
   succeeds and the heavy query returns a result set. Each row of the result
   set is represented by the length of its textual serialization, which is all
   the script ever uses (len(str(results[0]))). -/
inductive RoundOutcome where
  | connectFail
  | probeFail
  | queryFail
  | success (rows : List Nat)
  deriving DecidableEq, Repr

structure RoundResult where
  ok : Bool
  events : List VEvent
  estimate : Option Nat
  deriving DecidableEq, Repr

/- Size estimate computed in test_mysql_connection, guarded by the emptiness
   check on the result set: estimated_size = len(str(results[0])) * len(results)
   runs only under the if results: guard, hence the Option. -/
def estimatedSize : List Nat → Option Nat
  | [] => none
  | r :: rs => some (r * (r :: rs).length)

/- Embedding of test_mysql_connection (integration_test.py lines 376 to 427).
   Any exception inside the try block jumps to the handler, which logs and
   returns False; there is no finally clause, so cursor.close and conn.close
   run only on the all-success path. -/
def test_mysql_connection : RoundOutcome → RoundResult
  | .connectFail => ⟨false, [], none⟩
  | .probeFail => ⟨false, [.connOpen], none⟩
  | .queryFail => ⟨false, [.connOpen, .probeExec], none⟩
  | .success rows =>
    ⟨true, [.connOpen, .probeExec, .queryExec, .cursorClose, .connClose],
     estimatedSize rows⟩

def total_rounds : Nat := 3

/- Loop body of run_mysql_tests over the remaining round numbers. Returns
   (overall result, list of round numbers actually attempted, number of
   show_logs invocations). On the first failing round the loop logs, calls
   show_logs once and returns False, so no later round is attempted. -/
def runRounds (env : Nat → RoundOutcome) : List Nat → Bool × List Nat × Nat
  | [] => (true, [], 0)
  | i :: rest =>
    if (test_mysql_connection (env i)).ok then
      let r := runRounds env rest
      (r.1, i :: r.2.1, r.2.2)
    else
      (false, [i], 1)

/- Embedding of run_mysql_tests (integration_test.py lines 429 to 450): the
   for loop ranges over round numbers 1, 2, 3. -/
def run_mysql_tests (env : Nat → RoundOutcome) : Bool × List Nat × Nat :=
  runRounds env (List.range' 1 total_rounds)

def roundOk (env : Nat → RoundOutcome) (i : Nat) : Bool :=
  (test_mysql_connection (env i)).ok

/- Specification-side characterization: the first round number in 1..3 whose
   connect-probe-query check fails, if any. -/
def firstFailingRound (env : Nat → RoundOutcome) : Option Nat :=
  if roundOk env 1 then
    if roundOk env 2 then
      if roundOk env 3 then none else some 3
    else some 2
  else some 1

/-! ## Process stopping: stop_service_with_timeout and stop_processes -/

/- Observable commands issued by the stop phase. sshGracefulStop is the ssh
   systemctl stop invocation, sshPkill9Server the remote pkill -9 -f
   tunnox-server, sshPgrepServer the remote pgrep probe, pkillLocalClients the
   local plain (SIGTERM) pkill -f by client name pattern, pgrepLocalClients
   the local pgrep probe and pkill9LocalClients the local pkill -9 -f. -/
inductive SEvent where
  | sshGracefulStop
  | sshPkill9Server
  | sshPgrepServer
  | pkillLocalClients
  | pgrepLocalClients
  | pkill9LocalClients
  deriving DecidableEq, Repr

/- Behaviour of the graceful ssh systemctl stop subprocess: it either
   completes within the wall-clock timeout with some exit code (subprocess.run
   is called without check=True, so a nonzero exit code raises nothing), or it
   exceeds the timeout and subprocess.TimeoutExpired is raised. -/
inductive GracefulOutcome where
  | completes (exitCode : Int)
  | timesOut
  deriving DecidableEq, Repr

/- Embedding of stop_service_with_timeout (integration_test.py lines 110 to
   152). Returns the boolean result together with the trace of issued
   commands. forcedKillRaises tells whether the ssh pkill -9 command in the
   timeout handler raises an exception; only in that case is False returned. -/
def stop_service_with_timeout (g : GracefulOutcome) (forcedKillRaises : Bool) :
    Bool × List SEvent :=
  match g with
  | .completes _ => (true, [.sshGracefulStop])
  | .timesOut =>
    if forcedKillRaises then
      (false, [.sshGracefulStop, .sshPkill9Server])
    else
      (true, [.sshGracefulStop, .sshPkill9Server])

/- Environment of one execution of stop_processes: behaviour of the graceful
   stop, of the forced kill in its timeout handler, and whether the remote and
   local pgrep probes still find a matching process after the first stop. -/
structure StopEnv where
  graceful : GracefulOutcome
  forcedKillRaises : Bool
  serverRemains : Bool
  clientRemains : Bool
  deriving DecidableEq, Repr

/- Embedding of stop_processes (integration_test.py lines 154 to 191): remote
   part (graceful stop with timeout, pgrep confirm, conditional pkill -9),
   then local part (unconditional plain pkill by name pattern, pgrep confirm,
   conditional pkill -9). The trace lists the issued commands in order. -/
def stop_processes (e : StopEnv) : List SEvent :=
  (stop_service_with_timeout e.graceful e.forcedKillRaises).2 ++
  [.sshPgrepServer] ++
  (if e.serverRemains then [.sshPkill9Server] else []) ++
  [.pkillLocalClients, .pgrepLocalClients] ++
  (if e.clientRemains then [.pkill9LocalClients] else [])

/- An event is an invocation of the pkill binary (any signal). -/
def isPkillCmd : SEvent → Bool
  | .sshPkill9Server => true
  | .pkillLocalClients => true
  | .pkill9LocalClients => true
  | _ => false

/- An event is an invocation of pkill -9, the forced-kill variant. -/
def isForcedKill : SEvent → Bool
  | .sshPkill9Server => true
  | .pkill9LocalClients => true
  | _ => false

/- State in which no process matches the service or client name pattern: the
   graceful systemctl stop of the absent service returns promptly (with
   whatever exit code), and both pgrep probes find nothing. -/
def noMatchingProcess (e : StopEnv) : Prop :=
  e.graceful ≠ .timesOut ∧ e.serverRemains = false ∧ e.clientRemains = false

instance (e : StopEnv) : Decidable (noMatchingProcess e) := by
  unfold noMatchingProcess
  infer_instance

/-! ## SSH command construction: ssh_command and stop_service_with_timeout -/

/- Command string built by ssh_command (integration_test.py lines 94 to 108),
   as the concatenation of the same pieces as the Python f-strings; the single
   quotes wrapped around the remote command are elided. -/
def ssh_command_str (sshKey userName address cmd : String) : String :=
  "ssh -i " ++ sshKey ++ " " ++
  "-o StrictHostKeyChecking=no " ++
  "-o UserKnownHostsFile=/dev/null " ++
  "-o LogLevel=ERROR " ++
  userName ++ "@" ++ address ++ " " ++ cmd

/- Command string built inline by stop_service_with_timeout (integration_test
   lines 119 to 127); unlike ssh_command it adds -o ConnectTimeout=5. -/
def stop_service_cmd_str (sshKey userName address : String) : String :=
  "ssh -i " ++ sshKey ++ " " ++
  "-o StrictHostKeyChecking=no " ++
  "-o UserKnownHostsFile=/dev/null " ++
  "-o LogLevel=ERROR " ++
  "-o ConnectTimeout=5 " ++
  userName ++ "@" ++ address ++ " " ++ "systemctl stop tunnox.service"

/- Default wall-clock timeout of run_command (integration_test.py line 67),
   which bounds every ssh_command invocation. -/
def run_command_default_timeout : Nat := 30

/- Default wall-clock timeout of stop_service_with_timeout (line 110). -/
def stop_service_timeout : Nat := 10

/- Connect timeout carried by the graceful stop command (line 124). -/
def ssh_connect_timeout : Nat := 5

/- Substring containment on strings, via list infixes of the character data. -/
def containsSubstr (s pat : String) : Prop :=
  pat.data <:+: s.data

instance (s pat : String) : Decidable (containsSubstr s pat) :=
  List.decidableInfix pat.data s.data

/-! ## Client config generation: generate_client_config -/

/- The rendered configuration text of generate_client_config
   (integration_test.py lines 255 to 276 and generate_configs.py lines 11 to
   35; both scripts use the identical template). -/
def config_content (client_id secret_key server_addr : String)
    (server_port : Nat) : String :=
  "# Tunnox Client Configuration\nclient_id: " ++ client_id ++
  "\nauth_token: \"" ++ secret_key ++
  "\"\nanonymous: false\n\nserver:\n  protocol: udp\n  address: " ++
  server_addr ++ ":" ++ toString server_port ++
  "\n\nlog:\n  level: info\n  format: text\n  output: file\n"

/- File-system state: a map from paths to file contents. -/
def FileSystem := String → Option String

/- Opening a path in mode w and writing replaces its content. -/
def writeFile (fs : FileSystem) (path content : String) : FileSystem :=
  fun p => if p = path then some content else fs p

/- Embedding of generate_client_config: renders the template and overwrites
   folder/client-config.yaml with it. -/
def generate_client_config (fs : FileSystem)
    (folder client_id secret_key server_addr : String)
    (server_port : Nat) : FileSystem :=
  writeFile fs (folder ++ "/client-config.yaml")
    (config_content client_id secret_key server_addr server_port)

/-! ## The orchestrator: main -/

/- The phases of the pipeline, in source order of main (integration_test.py
   lines 496 to 556). -/
inductive Phase where
  | loadConfig
  | stopProcesses
  | build
  | deployServer
  | deployClients
  | generateConfigs
  | startService
  | startClients
  | verify
  deriving DecidableEq, Repr

/- Behaviour of one phase call inside the try block: it returns normally,
   raises an ordinary exception, or raises KeyboardInterrupt. -/
inductive PhaseOutcome where
  | ok
  | err
  | interrupt
  deriving DecidableEq, Repr

/- How a phase sequence aborted, if it did. -/
inductive Abort where
  | err
  | interrupt
  deriving DecidableEq, Repr

/- The phases invoked before the verification phase, in order. -/
def prePhases : List Phase :=
  [.loadConfig, .stopProcesses, .build, .deployServer, .deployClients,
   .generateConfigs, .startService, .startClients]

/- Straight-line execution of a phase list: each phase is invoked in turn and
   the first raising phase aborts the rest. Returns the list of phases that
   were actually invoked and the kind of abort, if any. -/
def runPhases (pout : Phase → PhaseOutcome) : List Phase → List Phase × Option Abort
  | [] => ([], none)
  | p :: ps =>
    match pout p with
    | .ok => ((p :: (runPhases pout ps).1), (runPhases pout ps).2)
    | .err => ([p], some .err)
    | .interrupt => ([p], some .interrupt)

/- The first abort caused by a phase list, if any. -/
def firstAbort (pout : Phase → PhaseOutcome) : List Phase → Option Abort
  | [] => none
  | p :: ps =>
    match pout p with
    | .ok => firstAbort pout ps
    | .err => some .err
    | .interrupt => some .interrupt

/- Observable outcome of main: the returned exit code (sys.exit(main())), the
   phases that were invoked, whether the start timestamp was recorded, whether
   the total elapsed wall time was reported, and how often show_logs ran. -/
structure MainResult where
  exitCode : Nat
  invoked : List Phase
  startRecorded : Bool
  elapsedReported : Bool
  showLogsRuns : Nat
  deriving DecidableEq, Repr

/- Embedding of main (integration_test.py lines 496 to 556). start_time is
   recorded before the try block in every run. The phases up to start_clients
   run inside the try block and any exception or KeyboardInterrupt they raise
   skips directly to the matching except handler, which returns 1 or 130
   without reporting elapsed time. When all of them return normally,
   run_mysql_tests decides the verdict; the elapsed-time report at lines 535
   to 537 runs on both its outcomes, and the return value is 0 on success and
   1 on failure. verifyInterrupted models KeyboardInterrupt arriving during
   the verification phase. -/
def main (pout : Phase → PhaseOutcome) (rounds : Nat → RoundOutcome)
    (verifyInterrupted : Bool) : MainResult :=
  match (runPhases pout prePhases).2 with
  | some .err => ⟨1, (runPhases pout prePhases).1, true, false, 0⟩
  | some .interrupt => ⟨130, (runPhases pout prePhases).1, true, false, 0⟩
  | none =>
    if verifyInterrupted then
      ⟨130, (runPhases pout prePhases).1 ++ [.verify], true, false, 0⟩
    else
      ⟨if (run_mysql_tests rounds).1 then 0 else 1,
       (runPhases pout prePhases).1 ++ [.verify], true, true,
       (run_mysql_tests rounds).2.2⟩

/- Phase environment in which the build phase raises and everything else
   succeeds. -/
def buildFailEnv : Phase → PhaseOutcome :=
  fun p => match p with
  | .build => .err
  | _ => .ok

/- A run was interrupted by the user: either some phase before verification
   raised KeyboardInterrupt, or all of them succeeded and the interrupt came
   during verification. -/
def interruptedRun (pout : Phase → PhaseOutcome) (verifyInterrupted : Bool) : Prop :=
  firstAbort pout prePhases = some .interrupt ∨
  (firstAbort pout prePhases = none ∧ verifyInterrupted = true)

/-! ## Theorems about the verification rounds -/

/-- Claim C1: in every verification run of 3 rounds, if round k is the first
round whose connect-probe-query check fails, then exactly rounds 1..k are
attempted (rounds k+1..3 never run), show_logs is invoked exactly once, and
run_mysql_tests returns failure; if no round fails, all 3 rounds run,
show_logs is never invoked, and the phase reports success. -/
theorem run_mysql_tests_stops_at_first_failure (env : Nat → RoundOutcome) :
    run_mysql_tests env =
      match firstFailingRound env with
      | some k => (false, List.range' 1 k, 1)
      | none => (true, [1, 2, 3], 0) := by
  have r1 : List.range' 1 1 = [1] := rfl
  have r2 : List.range' 1 2 = [1, 2] := rfl
  have r3 : List.range' 1 3 = [1, 2, 3] := rfl
  unfold run_mysql_tests total_rounds firstFailingRound roundOk
  cases h1 : (test_mysql_connection (env 1)).ok <;>
    cases h2 : (test_mysql_connection (env 2)).ok <;>
      cases h3 : (test_mysql_connection (env 3)).ok <;>
        simp [runRounds, h1, h2, h3, r1, r2, r3]

/-- Counterexample to claim C7 as stated: in the round outcome where the heavy
query raises, the connection was opened at the start of the round but is never
closed (test_mysql_connection has no finally clause). -/
theorem conn_not_closed_on_query_failure :
    VEvent.connOpen ∈ (test_mysql_connection .queryFail).events ∧
    VEvent.connClose ∉ (test_mysql_connection .queryFail).events := by
  decide

/-- Claim C7 (amended): in every verification round, the connection is opened
exactly when the connect call succeeds, and it is closed at the end of the
round exactly when the whole round succeeds; a round that fails after the
connection was opened returns without closing it. -/
theorem conn_closed_iff_round_ok (o : RoundOutcome) :
    (VEvent.connOpen ∈ (test_mysql_connection o).events ↔ o ≠ .connectFail) ∧
    (VEvent.connClose ∈ (test_mysql_connection o).events ↔
      (test_mysql_connection o).ok = true) := by
  cases o <;> simp [test_mysql_connection]

/-- Claim C10: a round whose heavy query succeeds always completes
successfully, and the payload-size estimate is absent exactly when the result
set is empty — the first result row is indexed only when it exists. -/
theorem estimate_only_when_rows_nonempty (rows : List Nat) :
    (test_mysql_connection (.success rows)).ok = true ∧
    ((test_mysql_connection (.success rows)).estimate = none ↔ rows = []) := by
  cases rows <;> simp [test_mysql_connection, estimatedSize]

/-! ## Theorems about process stopping -/

/-- Claim C9: the graceful remote stop returns True without any forced kill
whenever the ssh stop command completes within the timeout, whatever its exit
code; the forced kill is issued exactly when the graceful stop times out; and
the result is False exactly when the graceful stop timed out and the forced
kill then raised. -/
theorem stop_service_with_timeout_semantics (g : GracefulOutcome) (fr : Bool) :
    ((stop_service_with_timeout g fr).1 = false ↔ (g = .timesOut ∧ fr = true)) ∧
    (SEvent.sshPkill9Server ∈ (stop_service_with_timeout g fr).2 ↔
      g = .timesOut) := by
  cases g <;> cases fr <;> simp [stop_service_with_timeout]

/-- Counterexample to claim C4 as stated: in the state where no process
matches the service or client name pattern, the stop phase still invokes the
pkill binary — the local stop unconditionally issues a plain pkill by client
name pattern. -/
theorem stop_processes_invokes_pkill_when_idle :
    noMatchingProcess ⟨.completes 0, false, false, false⟩ ∧
    ¬ (∀ ev ∈ stop_processes ⟨.completes 0, false, false, false⟩,
        isPkillCmd ev = false) := by
  decide

/-- Claim C4 (amended): for every state in which no process matches the
service or client name pattern, the remote stop returns success, the whole
stop phase issues exactly the graceful stop, the two pgrep probes and one
unconditional plain (SIGTERM) local pkill, and the forced-kill primitive
pkill -9 is never invoked. -/
theorem stop_idle_no_forced_kill (e : StopEnv) (h : noMatchingProcess e) :
    (stop_service_with_timeout e.graceful e.forcedKillRaises).1 = true ∧
    stop_processes e =
      [.sshGracefulStop, .sshPgrepServer, .pkillLocalClients,
       .pgrepLocalClients] ∧
    ∀ ev ∈ stop_processes e, isForcedKill ev = false := by
  obtain ⟨hg, hs, hc⟩ := h
  obtain ⟨g, fr, sr, cr⟩ := e
  cases g with
  | timesOut => exact absurd rfl hg
  | completes c =>
    simp only at hs hc
    subst hs
    subst hc
    refine ⟨rfl, ?_, ?_⟩
    · simp [stop_processes, stop_service_with_timeout]
    · simp [stop_processes, stop_service_with_timeout]
      decide

/-- Witness for claim C4 (amended), at the concrete idle state. -/
theorem stop_idle_no_forced_kill_witness :
    (stop_service_with_timeout (GracefulOutcome.completes 0) false).1 = true ∧
    stop_processes ⟨GracefulOutcome.completes 0, false, false, false⟩ =
      [.sshGracefulStop, .sshPgrepServer, .pkillLocalClients,
       .pgrepLocalClients] ∧
    ∀ ev ∈ stop_processes ⟨GracefulOutcome.completes 0, false, false, false⟩,
      isForcedKill ev = false :=
  stop_idle_no_forced_kill ⟨GracefulOutcome.completes 0, false, false, false⟩
    (by decide)

/-! ## Theorems about the ssh command construction -/

set_option maxRecDepth 40000 in
/-- Counterexample to claim C6 as stated: a concrete ssh_command invocation
disables host-key prompting but carries no connect-timeout option at all —
only the inline graceful-stop command adds ConnectTimeout. -/
theorem ssh_command_has_no_connect_timeout :
    containsSubstr (ssh_command_str "udp-test.pem" "root" "server.example.com" "pwd")
      "-o StrictHostKeyChecking=no " ∧
    ¬ containsSubstr (ssh_command_str "udp-test.pem" "root" "server.example.com" "pwd")
      "ConnectTimeout" := by
  decide

/-- Claim C6 (amended): every ssh invocation built by ssh_command or by
stop_service_with_timeout disables host-key prompting; the graceful-stop
invocation carries the bounded connect timeout ConnectTimeout=5, and that
connect timeout is distinct from (smaller than) both the 10s execution
timeout of the stop command and the 30s default execution timeout of
run_command; plain ssh_command invocations carry no connect-timeout option. -/
theorem ssh_invocation_options (k u a c : String) :
    containsSubstr (ssh_command_str k u a c) "-o StrictHostKeyChecking=no " ∧
    containsSubstr (stop_service_cmd_str k u a) "-o StrictHostKeyChecking=no " ∧
    containsSubstr (stop_service_cmd_str k u a) "-o ConnectTimeout=5 " ∧
    ssh_connect_timeout < stop_service_timeout ∧
    ssh_connect_timeout ≠ stop_service_timeout ∧
    ssh_connect_timeout ≠ run_command_default_timeout := by
  refine ⟨?_, ?_, ?_, by decide, by decide, by decide⟩
  · refine ⟨("ssh -i " ++ k ++ " ").data,
      ("-o UserKnownHostsFile=/dev/null " ++ "-o LogLevel=ERROR " ++
        u ++ "@" ++ a ++ " " ++ c).data, ?_⟩
    simp [ssh_command_str]
  · refine ⟨("ssh -i " ++ k ++ " ").data,
      ("-o UserKnownHostsFile=/dev/null " ++ "-o LogLevel=ERROR " ++
        "-o ConnectTimeout=5 " ++ u ++ "@" ++ a ++ " " ++
        "systemctl stop tunnox.service").data, ?_⟩
    simp [stop_service_cmd_str]
  · refine ⟨("ssh -i " ++ k ++ " " ++ "-o StrictHostKeyChecking=no " ++
      "-o UserKnownHostsFile=/dev/null " ++ "-o LogLevel=ERROR ").data,
      (u ++ "@" ++ a ++ " " ++ "systemctl stop tunnox.service").data, ?_⟩
    simp [stop_service_cmd_str]

/-! ## Theorems about client config generation -/

/-- Claim C5: the generated client configuration content is a deterministic
function of (identity, secret, tunnel address, tunnel port): generating into
any prior file-system state writes exactly the rendered template at
folder/client-config.yaml, so two generations with identical inputs yield
byte-identical contents, and rerunning the generation overwrites the prior
file leaving the file system unchanged (idempotence). -/
theorem generate_client_config_deterministic (fs fs2 : FileSystem)
    (folder cid sk addr : String) (port : Nat) :
    generate_client_config (generate_client_config fs folder cid sk addr port)
        folder cid sk addr port =
      generate_client_config fs folder cid sk addr port ∧
    generate_client_config fs folder cid sk addr port
        (folder ++ "/client-config.yaml") =
      some (config_content cid sk addr port) ∧
    generate_client_config fs folder cid sk addr port
        (folder ++ "/client-config.yaml") =
      generate_client_config fs2 folder cid sk addr port
        (folder ++ "/client-config.yaml") := by
  refine ⟨funext fun p => ?_, ?_, ?_⟩
  · by_cases h : p = folder ++ "/client-config.yaml" <;>
      simp [generate_client_config, writeFile, h]
  · simp [generate_client_config, writeFile]
  · simp [generate_client_config, writeFile]

/-! ## Theorems about the orchestrator -/

lemma runPhases_snd (pout : Phase → PhaseOutcome) (ps : List Phase) :
    (runPhases pout ps).2 = firstAbort pout ps := by
  induction ps with
  | nil => rfl
  | cons p ps ih => cases h : pout p <;> simp [runPhases, firstAbort, h, ih]

lemma firstAbort_none_iff (pout : Phase → PhaseOutcome) (ps : List Phase) :
    firstAbort pout ps = none ↔ ∀ p ∈ ps, pout p = .ok := by
  induction ps with
  | nil => simp [firstAbort]
  | cons p ps ih => cases h : pout p <;> simp [firstAbort, h, ih]

lemma run_mysql_tests_passed_iff (env : Nat → RoundOutcome) :
    (run_mysql_tests env).1 = true ↔
      (roundOk env 1 = true ∧ roundOk env 2 = true ∧ roundOk env 3 = true) := by
  unfold run_mysql_tests total_rounds roundOk
  have r3 : List.range' 1 3 = [1, 2, 3] := rfl
  cases h1 : (test_mysql_connection (env 1)).ok <;>
    cases h2 : (test_mysql_connection (env 2)).ok <;>
      cases h3 : (test_mysql_connection (env 3)).ok <;>
        simp [runRounds, r3, h1, h2, h3]

/-- Claim C2: in every run in which the build phase raises a failure (the
phases before it having returned normally), exactly load-config,
stop-processes and build are invoked — deploy-server, deploy-clients,
generate-configs, start-service, start-clients and verify never run — and the
run reaches the fatal-failure report with exit code 1. -/
theorem build_failure_skips_later_phases (pout : Phase → PhaseOutcome)
    (rounds : Nat → RoundOutcome) (vI : Bool)
    (h1 : pout .loadConfig = .ok) (h2 : pout .stopProcesses = .ok)
    (h3 : pout .build = .err) :
    (main pout rounds vI).invoked = [.loadConfig, .stopProcesses, .build] ∧
    (main pout rounds vI).exitCode = 1 ∧
    ∀ p ∈ ([.deployServer, .deployClients, .generateConfigs, .startService,
            .startClients, .verify] : List Phase),
      p ∉ (main pout rounds vI).invoked := by
  have hr : runPhases pout prePhases =
      ([.loadConfig, .stopProcesses, .build], some .err) := by
    simp [prePhases, runPhases, h1, h2, h3]
  have hm : main pout rounds vI =
      ⟨1, [.loadConfig, .stopProcesses, .build], true, false, 0⟩ := by
    simp [main, hr]
  rw [hm]
  refine ⟨rfl, rfl, ?_⟩
  decide

/-- Witness for claim C2, at the environment where exactly the build phase
raises an ordinary exception. -/
theorem build_failure_skips_later_phases_witness :
    (main buildFailEnv (fun _ => .success []) false).invoked =
      [.loadConfig, .stopProcesses, .build] ∧
    (main buildFailEnv (fun _ => .success []) false).exitCode = 1 ∧
    ∀ p ∈ ([.deployServer, .deployClients, .generateConfigs, .startService,
            .startClients, .verify] : List Phase),
      p ∉ (main buildFailEnv (fun _ => .success []) false).invoked :=
  build_failure_skips_later_phases buildFailEnv (fun _ => .success []) false
    rfl rfl rfl

/-- Counterexample to claim C3 as stated: in the run where the build phase
raises, the start timestamp is recorded but the total elapsed wall time is
never reported — the except handler returns 1 without reaching the elapsed
report. -/
theorem elapsed_not_reported_on_build_failure :
    (main buildFailEnv (fun _ => .success []) false).startRecorded = true ∧
    (main buildFailEnv (fun _ => .success []) false).elapsedReported = false := by
  decide

/-- Claim C3 (amended): every run records the start timestamp, but the total
elapsed wall time is reported exactly when no phase raises, that is, when the
run reaches the final report with an overall success or verification-failure
outcome; on a fatal phase exception or a user interruption the run returns
its exit code without reporting elapsed time. -/
theorem main_elapsed_reported_iff (pout : Phase → PhaseOutcome)
    (rounds : Nat → RoundOutcome) (vI : Bool) :
    (main pout rounds vI).startRecorded = true ∧
    ((main pout rounds vI).elapsedReported = true ↔
      ((∀ p ∈ prePhases, pout p = .ok) ∧ vI = false)) := by
  have hs := runPhases_snd pout prePhases
  have hiff := firstAbort_none_iff pout prePhases
  cases ha : firstAbort pout prePhases with
  | none =>
    rw [ha] at hs
    have hall : ∀ p ∈ prePhases, pout p = .ok := hiff.mp ha
    cases vI with
    | false =>
      simp [main, hs, hall]
      exact hall
    | true => simp [main, hs, hall]
  | some ab =>
    rw [ha] at hs
    have hnall : ¬ ∀ p ∈ prePhases, pout p = .ok := by
      intro hall
      have h0 := hiff.mpr hall
      rw [ha] at h0
      exact Option.noConfusion h0
    cases ab with
    | err => simp [main, hs, hnall]
    | interrupt => simp [main, hs, hnall]

/-- Claim C8: the exit code is 0 exactly when every phase returns normally,
no user interruption occurs, and all 3 verification rounds succeed; it is 130
exactly on a user interruption; it is always one of 0, 1, 130, so every fatal
failure (phase exception or verification failure) yields 1; and the
interruption code 130 is distinct from 0 and 1. -/
theorem main_exit_code_semantics (pout : Phase → PhaseOutcome)
    (rounds : Nat → RoundOutcome) (vI : Bool) :
    ((main pout rounds vI).exitCode = 0 ↔
      ((∀ p ∈ prePhases, pout p = .ok) ∧ vI = false ∧
        roundOk rounds 1 = true ∧ roundOk rounds 2 = true ∧
        roundOk rounds 3 = true)) ∧
    ((main pout rounds vI).exitCode = 130 ↔ interruptedRun pout vI) ∧
    ((main pout rounds vI).exitCode = 0 ∨ (main pout rounds vI).exitCode = 1 ∨
      (main pout rounds vI).exitCode = 130) ∧
    (130 : Nat) ≠ 0 ∧ (130 : Nat) ≠ 1 := by
  have hs := runPhases_snd pout prePhases
  have hiff := firstAbort_none_iff pout prePhases
  have hp := run_mysql_tests_passed_iff rounds
  cases ha : firstAbort pout prePhases with
  | none =>
    rw [ha] at hs
    have hall : ∀ p ∈ prePhases, pout p = .ok := hiff.mp ha
    cases vI with
    | true => simp [main, hs, interruptedRun, ha, hall]
    | false =>
      cases hq : (run_mysql_tests rounds).1 with
      | true =>
        have hr := hp.mp hq
        simp [main, hs, hq, interruptedRun, ha, hall, hr.1, hr.2.1, hr.2.2]
        exact hall
      | false =>
        have hr : ¬ (roundOk rounds 1 = true ∧ roundOk rounds 2 = true ∧
            roundOk rounds 3 = true) := by
          intro hc
          rw [hp.mpr hc] at hq
          exact Bool.noConfusion hq
        simp [main, hs, hq, interruptedRun, ha, hall, hr]
  | some ab =>
    rw [ha] at hs
    have hnall : ¬ ∀ p ∈ prePhases, pout p = .ok := by
      intro hall
      have h0 := hiff.mpr hall
      rw [ha] at h0
      exact Option.noConfusion h0
    cases ab with
    | err => simp [main, hs, interruptedRun, ha, hnall]
    | interrupt => simp [main, hs, interruptedRun, ha, hnall]

end Tunnox

